import Mathlib

/-!
Shallow embedding of the PSG-Bunker Flask application (`src/app.py`).

The application is a single-file web front-end: a per-address login rate
limiter, a `/login` handler that validates input and delegates to an
external scraper module (`bunker_mod`), a server-side session, and
session-gated read endpoints (`/attendance`, `/cgpa`, `/courses`,
`/dashboard`, `/logout`).

Modelling conventions:
- Timestamps (Python `time.time()` floats) are modelled as `ℚ`.
- The external module `bunker_mod` is not part of the visible
  source; the whole `try`-block pipeline of calls
  (`return_attendance`, `get_course_plan`, `data_json`, `return_cgpa`)
  is abstracted as one oracle returning either an error string, a
  successful bundle of derived views, or an exception carrying details.
- The Flask session is a record of optional stored values; a missing
  key is `none` (Python `session.get(k, d)` is `Option.getD`).
- JSON mappings (`cgpa_data`, `course_plan`) are association lists.
- The Python call `re.match` on the fixed pattern is modelled by
  an executable matcher over the character list; `\d` is modelled as an
  ASCII digit and `[A-Za-z]` as an ASCII letter, matching the reading of the spec:
  "2 digits, 1-4 letters, 1-4 digits".
- The rate-limit table (`login_attempts`, a per-IP dict) is modelled
  per client address: the timestamp list of each address evolves
  independently, so one list suffices for per-address claims.
-/

/-- ASCII decimal digit, the model of `\d` in the roll-number pattern. -/
def isPatDigit (c : Char) : Bool := c.isDigit

/-- ASCII letter, the model of `[A-Za-z]` in the roll-number pattern. -/
def isPatAlpha (c : Char) : Bool := c.isAlpha

/--
Model of the roll-number pattern check of src/app.py:83, the regex
of 2 digits, then 1-4 ASCII letters, then 1-4 digits, anchored at both ends.
Because the digit and letter character classes are disjoint, the regex
matches exactly the strings of the form: two digits, then a maximal run
of 1-4 letters, then 1-4 digits, and nothing after.
-/
def rollnoMatch (s : String) : Bool :=
  match s.toList with
  | c1 :: c2 :: rest =>
    isPatDigit c1 && isPatDigit c2 &&
    (let letters := rest.takeWhile isPatAlpha
     let digits := rest.dropWhile isPatAlpha
     decide (1 ≤ letters.length) && decide (letters.length ≤ 4) &&
     decide (1 ≤ digits.length) && decide (digits.length ≤ 4) &&
     digits.all isPatDigit)
  | _ => false

/--
Model of the pruning step of the rate limiter (src/app.py:32):
`[attempt for attempt in login_attempts[ip] if attempt > now - time_window]`.
-/
def pruneAttempts (attempts : List ℚ) (now timeWindow : ℚ) : List ℚ :=
  attempts.filter (fun attempt => decide (now - timeWindow < attempt))

/-- Outcome of the check made by the `rate_limit` decorator for one request. -/
structure RateLimitStep where
  /-- True when the request is rejected with HTTP 429. -/
  rejected : Bool
  /-- The per-address attempt list stored after the check. -/
  attempts : List ℚ
  deriving DecidableEq, Repr

/--
Model of the `rate_limit` decorator body (src/app.py:27-45) acting on
the attempt list of one client address: prune to the trailing window, reject
with 429 if the pruned list already holds `max_attempts` entries,
otherwise record the current timestamp and let the handler run.
-/
def rate_limit (max_attempts : ℕ) (time_window : ℚ)
    (attempts : List ℚ) (now : ℚ) : RateLimitStep :=
  let pruned := pruneAttempts attempts now time_window
  if max_attempts ≤ pruned.length then
    { rejected := true, attempts := pruned }
  else
    { rejected := false, attempts := pruned ++ [now] }

/-- One subject record of the stored attendance list (spec section 3). -/
structure SubjectRecord where
  name : Option String
  course_title : Option String
  original_name : Option String
  total_hours : ℕ
  total_present : ℕ
  deriving DecidableEq, Repr

/-- JSON mapping stored under `cgpa_data`, as an association list. -/
def CgpaData : Type := List (String × String)

/-- JSON mapping of course code to title stored under `course_plan`. -/
def CoursePlan : Type := List (String × String)

instance : DecidableEq CgpaData := by unfold CgpaData; infer_instance

instance : DecidableEq CoursePlan := by unfold CoursePlan; infer_instance

instance : Repr CgpaData := by unfold CgpaData; infer_instance

instance : Repr CoursePlan := by unfold CoursePlan; infer_instance

/--
The server-side Flask session: keys written by `login` (src/app.py:108-114).
A key absent from the session is `none`.
-/
structure Session where
  rollno : Option String
  attendance_data : Option (List SubjectRecord)
  cgpa_data : Option CgpaData
  course_plan : Option CoursePlan
  permanent : Bool
  deriving DecidableEq, Repr

/-- The session after `flask_session.clear()` (src/app.py:214). -/
def clearedSession : Session :=
  { rollno := none, attendance_data := none, cgpa_data := none,
    course_plan := none, permanent := false }

/--
Outcome of the external scraping pipeline inside the `try` block of
`login` (src/app.py:90-105): `return_attendance` returning a string,
the calls succeeding with derived views, or any of them raising an
exception carrying arbitrary details.
-/
inductive ExtOutcome where
  | errStr (msg : String)
  | ok (attendance : List SubjectRecord) (cgpa : CgpaData) (plan : CoursePlan)
  | exn (details : String)

/-- HTTP response of the `/login` route, status code with body message. -/
inductive LoginResp where
  | tooMany (msg : String)      -- 429 from the rate limiter
  | badRequest (msg : String)   -- 400
  | unauthorized (msg : String) -- 401
  | okLogin                     -- 200, login successful
  | internalError (msg : String) -- 500
  deriving DecidableEq, Repr

/-- HTTP status code of a `/login` response. -/
def LoginResp.status : LoginResp → ℕ
  | .tooMany _ => 429
  | .badRequest _ => 400
  | .unauthorized _ => 401
  | .okLogin => 200
  | .internalError _ => 500

/--
Model of the Python `strip` call applied to the submitted roll number
(src/app.py:67 and 71): drop whitespace characters from both ends.
-/
def pyStrip (s : String) : String :=
  ⟨((s.data.dropWhile Char.isWhitespace).reverse.dropWhile
      Char.isWhitespace).reverse⟩

/--
A parsed `/login` request body. The Flask lookup `request.json.get` with default `""`
(and the form analogue) turns an absent field into `""`, so absent and
empty fields coincide in the model.
-/
structure LoginRequest where
  rollno : String
  password : String
  remember_me : Bool
  deriving DecidableEq, Repr

/--
The body of the `login` view function (src/app.py:64-129), after the
rate limiter has admitted the request. `ext` is the external scraping
pipeline. Returns the response and the session as left by the handler.
-/
def login_handler (ext : String → String → ExtOutcome)
    (req : LoginRequest) (s : Session) : LoginResp × Session :=
  let rollno := pyStrip req.rollno
  let password := req.password
  if rollno = "" ∨ password = "" then
    (.badRequest "Roll number and password are required", s)
  else if ¬ rollnoMatch rollno then
    (.badRequest "Invalid roll number format.", s)
  else
    match ext rollno password with
    | .errStr msg => (.unauthorized msg, s)
    | .ok attendance cgpa plan =>
        (.okLogin,
         { rollno := some rollno,
           attendance_data := some attendance,
           cgpa_data := some cgpa,
           course_plan := some plan,
           permanent := req.remember_me })
    | .exn _ =>
        (.internalError "An internal error occurred. Please try again later.", s)

/-- Application state seen by `/login` for one client address. -/
structure AppState where
  login_attempts : List ℚ
  session : Session
  deriving DecidableEq, Repr

/--
The full `/login` route (src/app.py:62-129): the `rate_limit` decorator
with `max_attempts=5, time_window=300` wrapped around `login_handler`.
-/
def login_route (ext : String → String → ExtOutcome) (req : LoginRequest)
    (st : AppState) (now : ℚ) : LoginResp × AppState :=
  let step := rate_limit 5 300 st.login_attempts now
  if step.rejected then
    (.tooMany "Too many login attempts. Please try again later.",
     { st with login_attempts := step.attempts })
  else
    let hs := login_handler ext req st.session
    (hs.1, { login_attempts := step.attempts, session := hs.2 })

/-- Model of the Python `int` conversion on a real value: truncation toward zero. -/
def pyInt (q : ℚ) : ℤ :=
  if q < 0 then ⌈q⌉ else ⌊q⌋

/-- Model of the sum of the `total_hours` fields (src/app.py:142). -/
def totalHours (subjects : List SubjectRecord) : ℕ :=
  (subjects.map (fun subject => subject.total_hours)).sum

/-- Model of the sum of the `total_present` fields (src/app.py:143). -/
def totalPresent (subjects : List SubjectRecord) : ℕ :=
  (subjects.map (fun subject => subject.total_present)).sum

/--
Model of `(total_present / total_hours * 100) if total_hours > 0 else 0`
(src/app.py:144), over exact rationals.
-/
def overallPercentage (subjects : List SubjectRecord) : ℚ :=
  if 0 < totalHours subjects then
    (totalPresent subjects : ℚ) / (totalHours subjects : ℚ) * 100
  else 0

/--
Model of `math.ceil((0.75 * total_hours - total_present) / 0.25)`
(src/app.py:148), computed in the branch `overall_percentage < 75`;
`0` otherwise (src/app.py:149).
-/
def needDays (subjects : List SubjectRecord) : ℤ :=
  if overallPercentage subjects < 75 then
    ⌈((0.75 : ℚ) * (totalHours subjects : ℚ) - (totalPresent subjects : ℚ))
      / (0.25 : ℚ)⌉
  else 0

/--
Model of `int((total_present - 0.75 * total_hours) / 0.75)` (src/app.py:152),
computed in the branch `overall_percentage >= 75`; `0` otherwise
(src/app.py:149).
-/
def bunkableDays (subjects : List SubjectRecord) : ℤ :=
  if overallPercentage subjects < 75 then 0
  else
    pyInt (((totalPresent subjects : ℚ) - (0.75 : ℚ) * (totalHours subjects : ℚ))
      / (0.75 : ℚ))

/--
The display-name fallback chain of `get_attendance` (src/app.py:158-160):
`course_title` first, then `name`, then `original_name`, with the
literal default when all three are absent.
-/
def display_name (subject : SubjectRecord) : String :=
  subject.course_title.getD (subject.name.getD
    (subject.original_name.getD "Unknown Course"))

/-- The JSON body of a successful `/attendance` response (src/app.py:163-170). -/
structure AttendanceBody where
  subjects : List (SubjectRecord × String)
  total_days : ℕ
  attended_days : ℕ
  percentage : ℚ
  need_days : ℤ
  bunkable_days : ℤ
  deriving DecidableEq, Repr

/-- Response of the `/attendance` route. -/
inductive AttendanceResp where
  | redirectHome                 -- login_required: no rollno in session
  | notFound (msg : String)      -- 404, no attendance data
  | okJson (body : AttendanceBody) -- 200
  deriving DecidableEq, Repr

/-- HTTP status code of an `/attendance` response (redirects are 302). -/
def AttendanceResp.status : AttendanceResp → ℕ
  | .redirectHome => 302
  | .notFound _ => 404
  | .okJson _ => 200

/--
The `/attendance` route (src/app.py:131-170): `login_required` then
`get_attendance`. the session lookup of `attendance_data` defaults to the empty list,
and `if not attendance_data` rejects the empty list with 404.
-/
def attendanceRoute (s : Session) : AttendanceResp :=
  if s.rollno.isNone then .redirectHome
  else
    let attendance_data := s.attendance_data.getD []
    if attendance_data.isEmpty then
      .notFound "No attendance data available"
    else
      .okJson
        { subjects := attendance_data.map
            (fun subject => (subject, display_name subject)),
          total_days := totalHours attendance_data,
          attended_days := totalPresent attendance_data,
          percentage := overallPercentage attendance_data,
          need_days := needDays attendance_data,
          bunkable_days := bunkableDays attendance_data }

/-- Response of the `/cgpa` and `/courses` routes. -/
inductive MappingResp where
  | redirectHome                  -- login_required: no rollno in session
  | okJson (data : List (String × String)) -- 200
  deriving DecidableEq, Repr

/-- HTTP status code of a `/cgpa` or `/courses` response. -/
def MappingResp.status : MappingResp → ℕ
  | .redirectHome => 302
  | .okJson _ => 200

/--
The `/cgpa` route (src/app.py:176-185): `login_required`, then
the stored `cgpa_data` mapping as JSON, defaulting to the empty mapping.
-/
def cgpaRoute (s : Session) : MappingResp :=
  if s.rollno.isNone then .redirectHome
  else .okJson (s.cgpa_data.getD [])

/--
The `/courses` route (src/app.py:187-196): `login_required`, then
the stored `course_plan` mapping as JSON, defaulting to the empty mapping.
-/
def coursesRoute (s : Session) : MappingResp :=
  if s.rollno.isNone then .redirectHome
  else .okJson (s.course_plan.getD [])

/-- Response of the `/dashboard` route. -/
inductive DashboardResp where
  | redirectHome
  | page (rollno : String) (attendance : List SubjectRecord) (cgpa : CgpaData)
  deriving DecidableEq, Repr

/--
The `/dashboard` route (src/app.py:198-209): `login_required`, then the
rendered dashboard with the stored session data.
-/
def dashboardRoute (s : Session) : DashboardResp :=
  match s.rollno with
  | none => .redirectHome
  | some rollno =>
      .page rollno (s.attendance_data.getD []) (s.cgpa_data.getD [])

/--
The `/logout` route (src/app.py:211-215): `flask_session.clear()` then a
redirect to home; returns the session left behind.
-/
def logoutRoute (_s : Session) : Session :=
  clearedSession

/-- Sample subject list totals: 100 total hours, 70 present (spec section 8). -/
def sample70 : SubjectRecord :=
  { name := none, course_title := none, original_name := none,
    total_hours := 100, total_present := 70 }

/-- Sample subject list totals: 100 total hours, 90 present (spec section 8). -/
def sample90 : SubjectRecord :=
  { name := none, course_title := none, original_name := none,
    total_hours := 100, total_present := 90 }

/-- A logged-in session that holds no stored data for the gated endpoints. -/
def loggedInNoData : Session :=
  { rollno := some "21IT066", attendance_data := none, cgpa_data := none,
    course_plan := none, permanent := false }

/--
Modelled from the spec claim wording for the display name: a fallback
chain over the string fields in the order `name`, then `course_title`,
then `original_name`, using the first one present. Stated only to be
compared with `display_name`, which is the chain the code implements.
-/
def claimDisplayName (subject : SubjectRecord) : String :=
  subject.name.getD (subject.course_title.getD
    (subject.original_name.getD "Unknown Course"))

/-- A subject record carrying both a `name` and a `course_title`. -/
def twoNamesRecord : SubjectRecord :=
  { name := some "Algebra", course_title := some "Linear Algebra",
    original_name := none, total_hours := 40, total_present := 40 }

/-- A logged-in session whose stored attendance list is `[twoNamesRecord]`. -/
def sessionTwoNames : Session :=
  { rollno := some "21IT066", attendance_data := some [twoNamesRecord],
    cgpa_data := none, course_plan := none, permanent := false }

/-- The `/attendance` response body computed from `sessionTwoNames`. -/
def twoNamesBody : AttendanceBody :=
  { subjects := [(twoNamesRecord, "Linear Algebra")],
    total_days := totalHours [twoNamesRecord],
    attended_days := totalPresent [twoNamesRecord],
    percentage := overallPercentage [twoNamesRecord],
    need_days := needDays [twoNamesRecord],
    bunkable_days := bunkableDays [twoNamesRecord] }

/-! Helper lemmas shared by the claim theorems. -/

theorem pyInt_of_nonneg (q : ℚ) (hq : 0 ≤ q) : pyInt q = ⌊q⌋ := by
  simp [pyInt, not_lt.mpr hq]

theorem overallPercentage_pos_def (subjects : List SubjectRecord)
    (hH : 0 < totalHours subjects) :
    overallPercentage subjects
      = (totalPresent subjects : ℚ) / (totalHours subjects : ℚ) * 100 := by
  simp [overallPercentage, hH]

theorem overallPercentage_zero (subjects : List SubjectRecord)
    (hH : totalHours subjects = 0) : overallPercentage subjects = 0 := by
  simp [overallPercentage, hH]

theorem le_pct_iff (subjects : List SubjectRecord)
    (hH : 0 < totalHours subjects) :
    75 ≤ overallPercentage subjects ↔
      (0.75 : ℚ) * (totalHours subjects : ℚ) ≤ (totalPresent subjects : ℚ) := by
  have hHQ : (0:ℚ) < (totalHours subjects : ℚ) := by exact_mod_cast hH
  rw [overallPercentage_pos_def subjects hH, div_mul_eq_mul_div, le_div_iff₀ hHQ]
  constructor <;> intro h <;> linarith

theorem pct_lt_iff (subjects : List SubjectRecord)
    (hH : 0 < totalHours subjects) :
    overallPercentage subjects < 75 ↔
      (totalPresent subjects : ℚ) < (0.75 : ℚ) * (totalHours subjects : ℚ) := by
  rw [← not_le, ← not_le]
  exact not_congr (le_pct_iff subjects hH)

theorem sum_present_le_sum_hours (subjects : List SubjectRecord)
    (hinv : ∀ r ∈ subjects, r.total_present ≤ r.total_hours) :
    totalPresent subjects ≤ totalHours subjects :=
  List.sum_le_sum hinv

theorem bunk_arg_nonneg (subjects : List SubjectRecord)
    (h : 75 ≤ overallPercentage subjects) :
    0 ≤ ((totalPresent subjects : ℚ)
          - (0.75 : ℚ) * (totalHours subjects : ℚ)) / (0.75 : ℚ) := by
  rcases Nat.eq_zero_or_pos (totalHours subjects) with h0 | hpos
  · rw [overallPercentage_zero subjects h0] at h
    norm_num at h
  · have hle := (le_pct_iff subjects hpos).mp h
    have hnum : 0 ≤ (totalPresent subjects : ℚ)
        - (0.75 : ℚ) * (totalHours subjects : ℚ) := by linarith
    exact div_nonneg hnum (by norm_num)

theorem need_arg_nonneg (subjects : List SubjectRecord)
    (hPH : totalPresent subjects ≤ totalHours subjects)
    (h : overallPercentage subjects < 75) :
    0 ≤ ((0.75 : ℚ) * (totalHours subjects : ℚ)
          - (totalPresent subjects : ℚ)) / (0.25 : ℚ) := by
  rcases Nat.eq_zero_or_pos (totalHours subjects) with h0 | hpos
  · have hP0 : totalPresent subjects = 0 := by omega
    rw [h0, hP0]
    norm_num
  · have hlt := (pct_lt_iff subjects hpos).mp h
    have hnum : 0 ≤ (0.75 : ℚ) * (totalHours subjects : ℚ)
        - (totalPresent subjects : ℚ) := by linarith
    exact div_nonneg hnum (by norm_num)

theorem fiveRecentAttempts :
    5 ≤ (pruneAttempts [10, 20, 30, 40, 50] 300 300).length := by
  norm_num [pruneAttempts]

/--
C1: for every client address, once 5 login attempts are recorded inside
the trailing 300-second window, the next POST to `/login` from that
address is rejected with HTTP 429 and the "too many attempts" message,
regardless of the request body or of what the external scraper would
answer.
-/
theorem C1_rate_limited_login_rejected_429
    (ext : String → String → ExtOutcome) (req : LoginRequest)
    (st : AppState) (now : ℚ)
    (h : 5 ≤ (pruneAttempts st.login_attempts now 300).length) :
    (login_route ext req st now).1
      = .tooMany "Too many login attempts. Please try again later." ∧
    (login_route ext req st now).1.status = 429 := by
  have hkey : (login_route ext req st now).1
      = .tooMany "Too many login attempts. Please try again later." := by
    simp [login_route, rate_limit, h]
  exact ⟨hkey, by rw [hkey]; rfl⟩

/--
Witness for C1: an address with 5 recorded attempts inside the window is
rejected at the 6th request, even with well-formed credentials.
-/
theorem C1_rate_limited_login_rejected_429_witness :
    5 ≤ (pruneAttempts [10, 20, 30, 40, 50] 300 300).length ∧
    (login_route (fun _ _ => .errStr "Invalid credentials")
        { rollno := "21IT066", password := "pw", remember_me := false }
        { login_attempts := [10, 20, 30, 40, 50], session := clearedSession }
        300).1
      = .tooMany "Too many login attempts. Please try again later." :=
  ⟨fiveRecentAttempts,
   (C1_rate_limited_login_rejected_429 _ _ _ _ fiveRecentAttempts).1⟩

/--
C2: on stored attendance records with positive aggregate hours,
`/attendance` computes percentage = total_present / total_hours * 100;
below the 75 threshold it returns need_days as the ceiling formula and
bunkable_days = 0, at or above it need_days = 0 and bunkable_days as the
floor formula; in particular hours=100, present=70 gives percentage 70
and need_days 20, and hours=100, present=90 gives percentage 90 and
bunkable_days 20.
-/
theorem C2_attendance_statistics_formulas
    (subjects : List SubjectRecord) (hH : 0 < totalHours subjects) :
    overallPercentage subjects
      = (totalPresent subjects : ℚ) / (totalHours subjects : ℚ) * 100 ∧
    (overallPercentage subjects < 75 →
        needDays subjects
          = ⌈((0.75 : ℚ) * (totalHours subjects : ℚ)
                - (totalPresent subjects : ℚ)) / (0.25 : ℚ)⌉ ∧
        bunkableDays subjects = 0) ∧
    (75 ≤ overallPercentage subjects →
        needDays subjects = 0 ∧
        bunkableDays subjects
          = ⌊((totalPresent subjects : ℚ)
                - (0.75 : ℚ) * (totalHours subjects : ℚ)) / (0.75 : ℚ)⌋) ∧
    overallPercentage [sample70] = 70 ∧ needDays [sample70] = 20 ∧
    overallPercentage [sample90] = 90 ∧ bunkableDays [sample90] = 20 := by
  refine ⟨overallPercentage_pos_def subjects hH, ?_, ?_, ?_, ?_, ?_, ?_⟩
  · intro h
    exact ⟨by rw [needDays, if_pos h], by rw [bunkableDays, if_pos h]⟩
  · intro h
    have hnl := not_lt.mpr h
    refine ⟨by rw [needDays, if_neg hnl], ?_⟩
    rw [bunkableDays, if_neg hnl, pyInt_of_nonneg _ (bunk_arg_nonneg subjects h)]
  · norm_num [overallPercentage, totalPresent, totalHours, sample70]
  · norm_num [needDays, overallPercentage, totalPresent, totalHours, sample70]
  · norm_num [overallPercentage, totalPresent, totalHours, sample90]
  · norm_num [bunkableDays, pyInt, overallPercentage, totalPresent, totalHours,
      sample90]

/--
Witness for C2: the single record with 100 hours and 70 present has
positive total hours, and the percentage formula holds there.
-/
theorem C2_attendance_statistics_formulas_witness :
    0 < totalHours [sample70] ∧
    overallPercentage [sample70]
      = (totalPresent [sample70] : ℚ) / (totalHours [sample70] : ℚ) * 100 :=
  ⟨by decide, (C2_attendance_statistics_formulas [sample70] (by decide)).1⟩

/--
C3: a POST to `/login` whose stripped roll number and password are
non-empty but whose roll number fails the fixed pattern of 2 digits,
1-4 letters, 1-4 digits is rejected with HTTP 400, and the result does
not depend on the external scraper, which is never called.
-/
theorem C3_invalid_rollno_format_rejected_400
    (ext : String → String → ExtOutcome) (req : LoginRequest) (s : Session)
    (hr : pyStrip req.rollno ≠ "") (hp : req.password ≠ "")
    (hm : rollnoMatch (pyStrip req.rollno) = false) :
    login_handler ext req s = (.badRequest "Invalid roll number format.", s) ∧
    (login_handler ext req s).1.status = 400 ∧
    ∀ ext' : String → String → ExtOutcome,
      login_handler ext' req s = login_handler ext req s := by
  have hkey : ∀ e : String → String → ExtOutcome,
      login_handler e req s = (.badRequest "Invalid roll number format.", s) := by
    intro e
    simp [login_handler, hr, hp, hm]
  exact ⟨hkey ext, by rw [hkey ext]; rfl, fun ext' => by rw [hkey ext', hkey ext]⟩

/--
Witness for C3: the roll number "21066" has no letter block, so the
login is rejected with the format message.
-/
theorem C3_invalid_rollno_format_rejected_400_witness :
    pyStrip "21066" ≠ "" ∧ rollnoMatch (pyStrip "21066") = false ∧
    login_handler (fun _ _ => .errStr "Invalid credentials")
        { rollno := "21066", password := "pw", remember_me := false }
        clearedSession
      = (.badRequest "Invalid roll number format.", clearedSession) :=
  ⟨by decide, by decide,
   (C3_invalid_rollno_format_rejected_400 _ _ _
      (by decide) (by decide) (by decide)).1⟩

/--
C5: `/logout` clears every stored session key (rollno, attendance_data,
cgpa_data, course_plan), and a `/dashboard` request in the cleared
session is redirected to the home page.
-/
theorem C5_logout_clears_session_dashboard_redirects (s : Session) :
    logoutRoute s = clearedSession ∧
    (logoutRoute s).rollno = none ∧
    (logoutRoute s).attendance_data = none ∧
    (logoutRoute s).cgpa_data = none ∧
    (logoutRoute s).course_plan = none ∧
    dashboardRoute (logoutRoute s) = .redirectHome :=
  ⟨rfl, rfl, rfl, rfl, rfl, rfl⟩

/--
C6: once validation passes, a string result from the external call
yields HTTP 401 carrying that string, a tuple result yields success with
attendance, CGPA and course-plan views stored in the session, and an
exception yields HTTP 500 with a fixed generic message independent of
the exception details.
-/
theorem C6_external_result_dispatch
    (ext : String → String → ExtOutcome) (req : LoginRequest) (s : Session)
    (hr : pyStrip req.rollno ≠ "") (hp : req.password ≠ "")
    (hm : rollnoMatch (pyStrip req.rollno) = true) :
    (∀ msg, ext (pyStrip req.rollno) req.password = .errStr msg →
        login_handler ext req s = (.unauthorized msg, s) ∧
        (login_handler ext req s).1.status = 401) ∧
    (∀ attendance cgpa plan,
        ext (pyStrip req.rollno) req.password = .ok attendance cgpa plan →
        login_handler ext req s
          = (.okLogin,
             { rollno := some (pyStrip req.rollno),
               attendance_data := some attendance,
               cgpa_data := some cgpa,
               course_plan := some plan,
               permanent := req.remember_me })) ∧
    (∀ details, ext (pyStrip req.rollno) req.password = .exn details →
        login_handler ext req s
          = (.internalError "An internal error occurred. Please try again later.", s) ∧
        (login_handler ext req s).1.status = 500) := by
  refine ⟨?_, ?_, ?_⟩
  · intro msg hext
    have hkey : login_handler ext req s = (.unauthorized msg, s) := by
      simp [login_handler, hr, hp, hm, hext]
    exact ⟨hkey, by rw [hkey]; rfl⟩
  · intro attendance cgpa plan hext
    simp [login_handler, hr, hp, hm, hext]
  · intro details hext
    have hkey : login_handler ext req s
        = (.internalError "An internal error occurred. Please try again later.", s) := by
      simp [login_handler, hr, hp, hm, hext]
    exact ⟨hkey, by rw [hkey]; rfl⟩

/--
Witness for C6: with a well-formed roll number and a scraper answering
an error string, the response is 401 with that string.
-/
theorem C6_external_result_dispatch_witness :
    rollnoMatch (pyStrip "21IT066") = true ∧
    login_handler (fun _ _ => .errStr "Invalid credentials")
        { rollno := "21IT066", password := "pw", remember_me := false }
        clearedSession
      = (.unauthorized "Invalid credentials", clearedSession) :=
  ⟨by decide,
   ((C6_external_result_dispatch _ _ _
       (by decide) (by decide) (by decide)).1 "Invalid credentials" rfl).1⟩

/--
C7: a POST to `/login` whose stripped roll number or password is empty
or absent is rejected with HTTP 400 and the required-fields message, and
the session is left unchanged.
-/
theorem C7_missing_credentials_rejected_400
    (ext : String → String → ExtOutcome) (req : LoginRequest) (s : Session)
    (h : pyStrip req.rollno = "" ∨ req.password = "") :
    login_handler ext req s
      = (.badRequest "Roll number and password are required", s) ∧
    (login_handler ext req s).1.status = 400 ∧
    (login_handler ext req s).2 = s := by
  have hkey : login_handler ext req s
      = (.badRequest "Roll number and password are required", s) := by
    rcases h with h | h <;> simp [login_handler, h]
  exact ⟨hkey, by rw [hkey]; rfl, by rw [hkey]⟩

/--
Witness for C7: a request with a whitespace-only roll number is rejected
with the required-fields message, leaving the session as it was.
-/
theorem C7_missing_credentials_rejected_400_witness :
    (pyStrip " " = "" ∨ ("pw" : String) = "") ∧
    login_handler (fun _ _ => .errStr "Invalid credentials")
        { rollno := " ", password := "pw", remember_me := false }
        clearedSession
      = (.badRequest "Roll number and password are required", clearedSession) :=
  ⟨Or.inl (by decide),
   (C7_missing_credentials_rejected_400 _ _ _ (Or.inl (by decide))).1⟩

/--
Counterexample to C4: a logged-in session with no stored `cgpa_data`
receives HTTP 200 with an empty mapping from `/cgpa`, not the HTTP 404
the claim states for every session-gated API endpoint.
-/
theorem C4_counterexample_cgpa_missing_data_200 :
    loggedInNoData.rollno = some "21IT066" ∧
    loggedInNoData.cgpa_data = none ∧
    cgpaRoute loggedInNoData = .okJson [] ∧
    (cgpaRoute loggedInNoData).status = 200 ∧
    ¬ (cgpaRoute loggedInNoData).status = 404 :=
  ⟨rfl, rfl, rfl, rfl, by decide⟩

/--
C4 amended: only `/attendance` returns HTTP 404 when its stored session
data is missing or empty; `/cgpa` and `/courses` with missing stored
data return HTTP 200 with an empty mapping.
-/
theorem C4_amended_gated_endpoints_missing_data
    (s : Session) (hlog : s.rollno.isNone = false) :
    ((s.attendance_data.getD []).isEmpty = true →
        attendanceRoute s = .notFound "No attendance data available" ∧
        (attendanceRoute s).status = 404) ∧
    (s.cgpa_data = none →
        cgpaRoute s = .okJson [] ∧ (cgpaRoute s).status = 200) ∧
    (s.course_plan = none →
        coursesRoute s = .okJson [] ∧ (coursesRoute s).status = 200) := by
  refine ⟨?_, ?_, ?_⟩
  · intro hempty
    have hkey : attendanceRoute s = .notFound "No attendance data available" := by
      simp [attendanceRoute, hlog, hempty]
    exact ⟨hkey, by rw [hkey]; rfl⟩
  · intro hnone
    have hkey : cgpaRoute s = .okJson [] := by
      simp [cgpaRoute, hlog, hnone]
    exact ⟨hkey, by rw [hkey]; rfl⟩
  · intro hnone
    have hkey : coursesRoute s = .okJson [] := by
      simp [coursesRoute, hlog, hnone]
    exact ⟨hkey, by rw [hkey]; rfl⟩

/--
Witness for the amended C4: the logged-in session without stored data
receives 404 from `/attendance`.
-/
theorem C4_amended_gated_endpoints_missing_data_witness :
    loggedInNoData.rollno.isNone = false ∧
    (loggedInNoData.attendance_data.getD []).isEmpty = true ∧
    attendanceRoute loggedInNoData = .notFound "No attendance data available" :=
  ⟨rfl, rfl,
   ((C4_amended_gated_endpoints_missing_data loggedInNoData rfl).1 rfl).1⟩

/--
Counterexample to C8: on a record carrying both `name` and
`course_title`, the code displays the `course_title` value, not the
`name` value that the claimed fallback order name, course_title,
original_name would produce.
-/
theorem C8_counterexample_course_title_preferred :
    twoNamesRecord.name = some "Algebra" ∧
    twoNamesRecord.course_title = some "Linear Algebra" ∧
    display_name twoNamesRecord = "Linear Algebra" ∧
    claimDisplayName twoNamesRecord = "Algebra" ∧
    display_name twoNamesRecord ≠ claimDisplayName twoNamesRecord :=
  ⟨rfl, rfl, rfl, rfl, by decide⟩

/--
C8 amended: in every successful `/attendance` response, each display
name is the fallback chain over the string fields of the record in the
order `course_title`, then `name`, then `original_name`, using the first
one present, with the literal "Unknown Course" when all are absent.
-/
theorem C8_amended_display_name_chain (s : Session) (body : AttendanceBody)
    (hresp : attendanceRoute s = .okJson body) :
    (∀ p ∈ body.subjects, p.2 = display_name p.1) ∧
    ∀ subject : SubjectRecord,
      (∀ t, subject.course_title = some t → display_name subject = t) ∧
      (subject.course_title = none →
        ∀ n, subject.name = some n → display_name subject = n) ∧
      (subject.course_title = none → subject.name = none →
        ∀ o, subject.original_name = some o → display_name subject = o) ∧
      (subject.course_title = none → subject.name = none →
        subject.original_name = none →
        display_name subject = "Unknown Course") := by
  constructor
  · unfold attendanceRoute at hresp
    by_cases hlog : s.rollno.isNone
    · simp [hlog] at hresp
    · by_cases hempty : (s.attendance_data.getD []).isEmpty
      · simp [hlog, hempty] at hresp
      · simp only [hlog, hempty, Bool.false_eq_true, if_false, if_neg] at hresp
        injection hresp with hbody
        intro p hp
        rw [← hbody] at hp
        simp only [List.mem_map] at hp
        obtain ⟨r, _, hr⟩ := hp
        rw [← hr]
  · intro subject
    refine ⟨?_, ?_, ?_, ?_⟩
    · intro t ht
      simp [display_name, ht]
    · intro hct n hn
      simp [display_name, hct, hn]
    · intro hct hn o ho
      simp [display_name, hct, hn, ho]
    · intro hct hn ho
      simp [display_name, hct, hn, ho]

/--
Witness for the amended C8: the response over `sessionTwoNames` pairs
the record with the display name computed by the code chain.
-/
theorem C8_amended_display_name_chain_witness :
    attendanceRoute sessionTwoNames = .okJson twoNamesBody ∧
    ∀ p ∈ twoNamesBody.subjects, p.2 = display_name p.1 :=
  ⟨rfl, (C8_amended_display_name_chain sessionTwoNames twoNamesBody rfl).1⟩

/--
C9: on records satisfying the data-model invariant present <= hours,
need_days and bunkable_days are non-negative, at least one of them is 0,
need_days is positive only below the 75 percent threshold, bunkable_days
only at or above it, and zero total hours reports percentage 0.
-/
theorem C9_attendance_response_invariants (subjects : List SubjectRecord)
    (hinv : ∀ r ∈ subjects, r.total_present ≤ r.total_hours) :
    0 ≤ needDays subjects ∧ 0 ≤ bunkableDays subjects ∧
    (needDays subjects = 0 ∨ bunkableDays subjects = 0) ∧
    (0 < needDays subjects → overallPercentage subjects < 75) ∧
    (0 < bunkableDays subjects → 75 ≤ overallPercentage subjects) ∧
    (totalHours subjects = 0 → overallPercentage subjects = 0) := by
  have hPH := sum_present_le_sum_hours subjects hinv
  by_cases hp : overallPercentage subjects < 75
  · have hneed : needDays subjects
        = ⌈((0.75 : ℚ) * (totalHours subjects : ℚ)
              - (totalPresent subjects : ℚ)) / (0.25 : ℚ)⌉ := by
      rw [needDays, if_pos hp]
    have hbunk : bunkableDays subjects = 0 := by rw [bunkableDays, if_pos hp]
    refine ⟨?_, ?_, .inr hbunk, fun _ => hp, ?_,
      fun h0 => overallPercentage_zero subjects h0⟩
    · rw [hneed]
      exact Int.ceil_nonneg (need_arg_nonneg subjects hPH hp)
    · rw [hbunk]
    · intro hpos
      rw [hbunk] at hpos
      exact absurd hpos (lt_irrefl 0)
  · have h75 : 75 ≤ overallPercentage subjects := not_lt.mp hp
    have hneed : needDays subjects = 0 := by rw [needDays, if_neg hp]
    have hbunk : bunkableDays subjects
        = ⌊((totalPresent subjects : ℚ)
              - (0.75 : ℚ) * (totalHours subjects : ℚ)) / (0.75 : ℚ)⌋ := by
      rw [bunkableDays, if_neg hp, pyInt_of_nonneg _ (bunk_arg_nonneg subjects h75)]
    refine ⟨by rw [hneed], ?_, .inl hneed, ?_, fun _ => h75,
      fun h0 => overallPercentage_zero subjects h0⟩
    · rw [hbunk]
      exact Int.le_floor.mpr (by exact_mod_cast bunk_arg_nonneg subjects h75)
    · intro hpos
      rw [hneed] at hpos
      exact absurd hpos (lt_irrefl 0)

/--
Witness for C9: the single record with 100 hours and 70 present
satisfies the invariant, and its need_days is non-negative.
-/
theorem C9_attendance_response_invariants_witness :
    (∀ r ∈ [sample70], r.total_present ≤ r.total_hours) ∧
    0 ≤ needDays [sample70] :=
  ⟨by decide, (C9_attendance_response_invariants [sample70] (by decide)).1⟩

/--
C10: a POST to `/login` that is not rejected with 429 stores exactly the
pruned attempt list with the current timestamp appended, so the stored
list never exceeds 5 entries, and the stored list does not depend on the
request body or on the external scraper: successful logins, malformed
requests and failed credentials count equally.
-/
theorem C10_attempt_recorded_before_handler
    (ext : String → String → ExtOutcome) (req : LoginRequest)
    (st : AppState) (now : ℚ)
    (h : (login_route ext req st now).1.status ≠ 429) :
    (login_route ext req st now).2.login_attempts
      = pruneAttempts st.login_attempts now 300 ++ [now] ∧
    (login_route ext req st now).2.login_attempts.length ≤ 5 ∧
    ∀ (ext' : String → String → ExtOutcome) (req' : LoginRequest),
      (login_route ext' req' st now).2.login_attempts
        = (login_route ext req st now).2.login_attempts := by
  by_cases hr : 5 ≤ (pruneAttempts st.login_attempts now 300).length
  · exact absurd (by simp [login_route, rate_limit, hr, LoginResp.status]) h
  · refine ⟨?_, ?_, ?_⟩
    · simp [login_route, rate_limit, hr]
    · have hatt : (login_route ext req st now).2.login_attempts
          = pruneAttempts st.login_attempts now 300 ++ [now] := by
        simp [login_route, rate_limit, hr]
      rw [hatt, List.length_append]
      simp only [List.length_singleton]
      omega
    · intro ext' req'
      simp [login_route, rate_limit, hr]

/--
Witness for C10: a first attempt from a fresh address is not
rate-limited and is recorded as the single stored timestamp.
-/
theorem C10_attempt_recorded_before_handler_witness :
    (login_route (fun _ _ => .errStr "Invalid credentials")
        { rollno := "21IT066", password := "pw", remember_me := false }
        { login_attempts := [], session := clearedSession } 300).1.status ≠ 429 ∧
    (login_route (fun _ _ => .errStr "Invalid credentials")
        { rollno := "21IT066", password := "pw", remember_me := false }
        { login_attempts := [], session := clearedSession } 300).2.login_attempts
      = pruneAttempts [] 300 300 ++ [300] :=
  ⟨by decide, (C10_attempt_recorded_before_handler _ _ _ _ (by decide)).1⟩
